import Mathlib

/-!
Verification development for the cargo shipping example
(cargoshipping/domainmodel.py).

The domain model is an event-sourced Cargo aggregate.  Its state is a
record of eleven attributes; three event kinds (DestinationChanged,
RouteAssigned, HandlingEventRegistered) mutate the state in place.  The
handling-event mutation is a state machine keyed on the handling
activity (RECEIVE / LOAD / UNLOAD / CLAIM).

The embedding below mirrors the Python source faithfully:
  * In the source, `Leg` and `Itinerary` carry location NAMES as plain
    strings, while the cargo state holds `Location` enum members; the
    LOAD branch compares `leg.origin == self.location.value` (strings)
    and converts with `Location[leg.destination]` (which raises
    `KeyError` for an unknown name).  We keep that distinction.
  * The mutation functions assign fields in source order and may raise
    afterwards (`raise Exception` in the LOAD branch, `IndexError` on a
    list access, `KeyError` on a `Location[...]` lookup, and
    `AssertionError` on a failed `assert`).  A raising mutation leaves
    the object with every assignment made before the raise, so each
    mutation returns the (possibly partially mutated) state together
    with an optional error.
  * `RouteAssigned.mutate` reads the wall clock (`datetime.now()`), so
    every mutation takes the current clock reading as a parameter;
    timestamps are modelled as natural numbers.
An event is appended to the log only when its mutation succeeded
(`__trigger_event__` mutates first and publishes after), so reachable
projections are folds of successful mutations from a fresh booking.
-/

/-- Locations in the world (the `Location` enum of the source). -/
inductive Location where
  | HAMBURG
  | HONGKONG
  | NEWYORK
  | STOCKHOLM
  | TOKYO
  | NLRTM
  | USDAL
  | AUMEL
deriving DecidableEq, Repr

/-- The `.value` of a `Location` enum member (its name string). -/
def Location.value : Location → String
  | .HAMBURG => "HAMBURG"
  | .HONGKONG => "HONGKONG"
  | .NEWYORK => "NEWYORK"
  | .STOCKHOLM => "STOCKHOLM"
  | .TOKYO => "TOKYO"
  | .NLRTM => "NLRTM"
  | .USDAL => "USDAL"
  | .AUMEL => "AUMEL"

/-- The lookup `Location[name]`; `none` models the `KeyError` raised for
an unknown name. -/
def locationOfName : String → Option Location
  | "HAMBURG" => some .HAMBURG
  | "HONGKONG" => some .HONGKONG
  | "NEWYORK" => some .NEWYORK
  | "STOCKHOLM" => some .STOCKHOLM
  | "TOKYO" => some .TOKYO
  | "NLRTM" => some .NLRTM
  | "USDAL" => some .USDAL
  | "AUMEL" => some .AUMEL
  | _ => none

/-- Leg of an itinerary; the source stores all three fields as strings. -/
structure Leg where
  origin : String
  destination : String
  voyage_number : String
deriving DecidableEq, Repr

/-- Itinerary; origin and destination are strings in the source. -/
structure Itinerary where
  origin : String
  destination : String
  legs : List Leg
deriving DecidableEq, Repr

/-- Handling activities. -/
inductive HandlingActivity where
  | RECEIVE
  | LOAD
  | UNLOAD
  | CLAIM
deriving DecidableEq, Repr

/-- The `NextExpectedActivity` tuples: either `(activity, location)` or
`(activity, location, voyage_number)`.  The third component is an
`Option String` because the LOAD branch stores the event's optional
voyage number directly. -/
inductive NextActivity where
  | pair (activity : HandlingActivity) (location : Location)
  | triple (activity : HandlingActivity) (location : Location)
      (voyage_number : Option String)
deriving DecidableEq, Repr

/-- The Cargo aggregate's mutable attributes (`Cargo.__init__`). -/
structure Cargo where
  origin : Location
  destination : Location
  arrivalDeadline : Nat
  transportStatus : String
  routingStatus : String
  isMisdirected : Bool
  estimatedTimeOfArrival : Option Nat
  nextExpectedActivity : Option NextActivity
  route : Option Itinerary
  lastKnownLocation : Option Location
  currentVoyageNumber : Option String
deriving DecidableEq, Repr

/-- The ways a mutation can raise in the source. -/
inductive MutateError where
  | assertionError
  | legNotFound (location : Location) (voyage_number : Option String)
  | keyError (name : String)
  | indexError
deriving DecidableEq, Repr

/-- The three event kinds that mutate a Cargo. -/
inductive CargoEvent where
  | destinationChanged (destination : Location)
  | routeAssigned (route : Itinerary)
  | handlingEventRegistered (voyage_number : Option String)
      (location : Location) (activity : HandlingActivity)
deriving DecidableEq, Repr

/-- `Cargo.new_booking` / `Cargo.__init__`: the version-0 projection. -/
def newBooking (origin destination : Location) (arrival_deadline : Nat) : Cargo :=
  { origin := origin
    destination := destination
    arrivalDeadline := arrival_deadline
    transportStatus := "NOT_RECEIVED"
    routingStatus := "NOT_ROUTED"
    isMisdirected := false
    estimatedTimeOfArrival := none
    nextExpectedActivity := none
    route := none
    lastKnownLocation := none
    currentVoyageNumber := none }

/-- One week, the placeholder `timedelta(weeks=1)` offset, in seconds. -/
def oneWeek : Nat := 604800

/-- The LOAD branch's loop condition:
`leg.origin == self.location.value and leg.voyage_number == self.voyage_number`
(the second comparison is a string against an optional string). -/
def legMatchesLoad (locationValue : String) (voyage_number : Option String)
    (leg : Leg) : Bool :=
  leg.origin == locationValue && some leg.voyage_number == voyage_number

/-- RECEIVE branch of `HandlingEventRegistered.mutate`: sets
`transport_status` and `last_known_location`, then reads
`route.legs[0]` (an `IndexError` on an empty leg list happens after
those two assignments). -/
def mutateReceive (location : Location) (route : Itinerary) (obj : Cargo) :
    Cargo × Option MutateError :=
  match route.legs[0]? with
  | none =>
      ({ obj with transportStatus := "IN_PORT",
                  lastKnownLocation := some location }, some .indexError)
  | some firstLeg =>
      ({ obj with transportStatus := "IN_PORT",
                  lastKnownLocation := some location,
                  nextExpectedActivity :=
                    some (.triple .LOAD location (some firstLeg.voyage_number)) },
       none)

/-- LOAD branch: assigns `transport_status = "ONBOARD_CARRIER"` and
`current_voyage_number = voyage_number` first, then scans the legs for
one matching both origin and voyage number.  The for-else raises (leg
not found) when no leg matches; `Location[leg.destination]` on the
first match raises `KeyError` for an unknown name. -/
def mutateLoad (voyage_number : Option String) (location : Location)
    (route : Itinerary) (obj : Cargo) : Cargo × Option MutateError :=
  match route.legs.find? (legMatchesLoad location.value voyage_number) with
  | none =>
      ({ obj with transportStatus := "ONBOARD_CARRIER",
                  currentVoyageNumber := voyage_number },
       some (.legNotFound location voyage_number))
  | some leg =>
      match locationOfName leg.destination with
      | none =>
          ({ obj with transportStatus := "ONBOARD_CARRIER",
                      currentVoyageNumber := voyage_number },
           some (.keyError leg.destination))
      | some legDest =>
          ({ obj with transportStatus := "ONBOARD_CARRIER",
                      currentVoyageNumber := voyage_number,
                      nextExpectedActivity :=
                        some (.triple .UNLOAD legDest voyage_number) },
           none)

/-- UNLOAD branch: always assigns `current_voyage_number = None`,
`last_known_location = location` and `transport_status = "IN_PORT"`
first.  Then: arrival at the cargo's destination expects a CLAIM;
otherwise, if the location appears among the legs' destinations, the
loop finds the first leg whose voyage number equals the event's voyage
number, reads `route.legs[i + 1]` (a possible `IndexError`), checks
`assert Location[next_leg.origin] == self.location` (a possible
`KeyError` or `AssertionError`) and expects the next LOAD; the loop
falls through silently when no voyage number matches; otherwise the
cargo is misdirected. -/
def mutateUnload (voyage_number : Option String) (location : Location)
    (route : Itinerary) (obj : Cargo) : Cargo × Option MutateError :=
  if location = obj.destination then
    ({ obj with currentVoyageNumber := none,
                lastKnownLocation := some location,
                transportStatus := "IN_PORT",
                nextExpectedActivity := some (.pair .CLAIM location) }, none)
  else if location.value ∈ route.legs.map Leg.destination then
    match route.legs.findIdx? (fun leg => some leg.voyage_number == voyage_number) with
    | none =>
        ({ obj with currentVoyageNumber := none,
                    lastKnownLocation := some location,
                    transportStatus := "IN_PORT" }, none)
    | some i =>
        match route.legs[i + 1]? with
        | none =>
            ({ obj with currentVoyageNumber := none,
                        lastKnownLocation := some location,
                        transportStatus := "IN_PORT" }, some .indexError)
        | some nextLeg =>
            match locationOfName nextLeg.origin with
            | none =>
                ({ obj with currentVoyageNumber := none,
                            lastKnownLocation := some location,
                            transportStatus := "IN_PORT" },
                 some (.keyError nextLeg.origin))
            | some nextLegOrigin =>
                if nextLegOrigin = location then
                  ({ obj with currentVoyageNumber := none,
                              lastKnownLocation := some location,
                              transportStatus := "IN_PORT",
                              nextExpectedActivity :=
                                some (.triple .LOAD location
                                  (some nextLeg.voyage_number)) }, none)
                else
                  ({ obj with currentVoyageNumber := none,
                              lastKnownLocation := some location,
                              transportStatus := "IN_PORT" },
                   some .assertionError)
  else
    ({ obj with currentVoyageNumber := none,
                lastKnownLocation := some location,
                transportStatus := "IN_PORT",
                isMisdirected := true,
                nextExpectedActivity := none }, none)

/-- CLAIM branch: clears the next expected activity and marks the cargo
claimed. -/
def mutateClaim (obj : Cargo) : Cargo × Option MutateError :=
  ({ obj with nextExpectedActivity := none, transportStatus := "CLAIMED" }, none)

/-- `HandlingEventRegistered.mutate`: asserts that a route is assigned,
then dispatches on the handling activity.  (The final `else: raise` of
the source is unreachable here because `HandlingActivity` is a closed
enumeration.) -/
def mutateHE (voyage_number : Option String) (location : Location)
    (activity : HandlingActivity) (obj : Cargo) : Cargo × Option MutateError :=
  match obj.route with
  | none => (obj, some .assertionError)
  | some route =>
    match activity with
    | .RECEIVE => mutateReceive location route obj
    | .LOAD => mutateLoad voyage_number location route obj
    | .UNLOAD => mutateUnload voyage_number location route obj
    | .CLAIM => mutateClaim obj

/-- Applying one event's `mutate` to the projection.  `now` is the
clock reading `datetime.now()` at the moment the mutation runs (only
`RouteAssigned.mutate` reads it). -/
def applyEvent (now : Nat) (e : CargoEvent) (obj : Cargo) :
    Cargo × Option MutateError :=
  match e with
  | .destinationChanged d => ({ obj with destination := d }, none)
  | .routeAssigned r =>
      ({ obj with route := some r,
                  routingStatus := "ROUTED",
                  estimatedTimeOfArrival := some (now + oneWeek),
                  nextExpectedActivity := some (.pair .RECEIVE obj.origin),
                  isMisdirected := false }, none)
  | .handlingEventRegistered v loc a => mutateHE v loc a obj

/-- `__trigger_event__`: the event mutates the aggregate first and is
published (appended to the pending log) only afterwards, so a raising
mutation leaves the log untouched. -/
def trigger (now : Nat) (e : CargoEvent) (obj : Cargo) (log : List CargoEvent) :
    (Cargo × List CargoEvent) × Option MutateError :=
  match applyEvent now e obj with
  | (obj2, none) => ((obj2, log ++ [e]), none)
  | (obj2, some err) => ((obj2, log), some err)

/-- Reconstructing a projection by replaying events in order, stopping
at the first raising mutation.  `clocks` supplies the wall-clock
reading for each successive mutation. -/
def replay (clocks : List Nat) (events : List CargoEvent) (obj : Cargo) :
    Cargo × Option MutateError :=
  match events with
  | [] => (obj, none)
  | e :: rest =>
    match applyEvent (clocks.headD 0) e obj with
    | (obj2, none) => replay clocks.tail rest obj2
    | (obj2, some err) => (obj2, some err)

/-- A projection with the `estimatedTimeOfArrival` field blanked; two
cargos agree on every other field iff their `eraseEta` images are
equal. -/
def eraseEta (c : Cargo) : Cargo :=
  { c with estimatedTimeOfArrival := none }

/-- States reachable from a fresh booking by successful mutations whose
triggering commands satisfy `guard` (the caller-level discipline). -/
inductive ReachableG (guard : CargoEvent → Cargo → Bool) : Cargo → Prop where
  | booked (origin destination : Location) (deadline : Nat) :
      ReachableG guard (newBooking origin destination deadline)
  | step (c : Cargo) (e : CargoEvent) (now : Nat) (c2 : Cargo) :
      ReachableG guard c → guard e c = true →
      applyEvent now e c = (c2, none) → ReachableG guard c2

/-- The trivial guard: any command at any state. -/
def noGuard : CargoEvent → Cargo → Bool := fun _ _ => true

/-- States reachable by arbitrary sequences of the three event kinds. -/
def Reachable (c : Cargo) : Prop := ReachableG noGuard c

/-!  Concrete fixtures: the registered HONGKONG → STOCKHOLM route of
`REGISTERED_ROUTES` and the states visited by the test scenario, plus a
route with an unknown destination name (legal input: `assign_route`
performs no validation on the itinerary). -/

/-- The registered HONGKONG → STOCKHOLM itinerary. -/
def itinHS : Itinerary :=
  { origin := "HONGKONG", destination := "STOCKHOLM",
    legs := [ { origin := "HONGKONG", destination := "NEWYORK", voyage_number := "V1" },
              { origin := "NEWYORK", destination := "STOCKHOLM", voyage_number := "V2" } ] }

/-- An itinerary whose leg destination is not a known location name. -/
def itinBad : Itinerary :=
  { origin := "HONGKONG", destination := "ATLANTIS",
    legs := [ { origin := "HONGKONG", destination := "ATLANTIS", voyage_number := "V9" } ] }

/-- A fresh booking from HONGKONG to STOCKHOLM. -/
def cargo0 : Cargo := newBooking .HONGKONG .STOCKHOLM 0

def eAssignHS : CargoEvent := .routeAssigned itinHS
def eAssignBad : CargoEvent := .routeAssigned itinBad
def eReceiveHK : CargoEvent := .handlingEventRegistered none .HONGKONG .RECEIVE
def eReceiveTK : CargoEvent := .handlingEventRegistered none .TOKYO .RECEIVE
def eLoadV1HK : CargoEvent := .handlingEventRegistered (some "V1") .HONGKONG .LOAD
def eLoadV9TK : CargoEvent := .handlingEventRegistered (some "V9") .TOKYO .LOAD
def eUnloadV1TK : CargoEvent := .handlingEventRegistered (some "V1") .TOKYO .UNLOAD
def eUnloadV2ST : CargoEvent := .handlingEventRegistered (some "V2") .STOCKHOLM .UNLOAD
def eClaimST : CargoEvent := .handlingEventRegistered none .STOCKHOLM .CLAIM
def eChangeDestUS : CargoEvent := .destinationChanged .USDAL

/-- The booking with the registered route assigned. -/
def routedHS : Cargo := (applyEvent 0 eAssignHS cargo0).1

/-- Routed, then loaded onto voyage V1 at HONGKONG. -/
def loadedHS : Cargo := (applyEvent 0 eLoadV1HK routedHS).1

/-- Loaded, then claimed (no unload in between). -/
def claimedAfterLoad : Cargo := (applyEvent 0 eClaimST loadedHS).1

/-- Routed, then unloaded at off-route TOKYO: misdirected. -/
def misdirHS : Cargo := (applyEvent 0 eUnloadV1TK routedHS).1

/-- Misdirected, then a RECEIVE is registered at TOKYO. -/
def misdirReceived : Cargo := (applyEvent 0 eReceiveTK misdirHS).1

/-- Routed, then claimed at STOCKHOLM. -/
def claimedHS : Cargo := (applyEvent 0 eClaimST routedHS).1

/-- Claimed, then a route is assigned again. -/
def reroutedClaimed : Cargo := (applyEvent 0 eAssignHS claimedHS).1

/-- Routed, then the destination is changed to USDAL. -/
def destChangedHS : Cargo := (applyEvent 0 eChangeDestUS routedHS).1

/-- Booked, with the unknown-destination itinerary assigned. -/
def routedBad : Cargo := (applyEvent 0 eAssignBad cargo0).1

/-!  Reachability of the fixture states, generic in the guard so the
same chains serve both the unrestricted and the guarded notions. -/

lemma reachG_cargo0 (g : CargoEvent → Cargo → Bool) : ReachableG g cargo0 :=
  ReachableG.booked Location.HONGKONG Location.STOCKHOLM 0

lemma reachG_routedHS (g : CargoEvent → Cargo → Bool)
    (h1 : g eAssignHS cargo0 = true) : ReachableG g routedHS :=
  ReachableG.step cargo0 eAssignHS 0 routedHS (reachG_cargo0 g) h1 (by decide)

lemma reachG_loadedHS (g : CargoEvent → Cargo → Bool)
    (h1 : g eAssignHS cargo0 = true) (h2 : g eLoadV1HK routedHS = true) :
    ReachableG g loadedHS :=
  ReachableG.step routedHS eLoadV1HK 0 loadedHS (reachG_routedHS g h1) h2 (by decide)

lemma reachG_claimedAfterLoad (g : CargoEvent → Cargo → Bool)
    (h1 : g eAssignHS cargo0 = true) (h2 : g eLoadV1HK routedHS = true)
    (h3 : g eClaimST loadedHS = true) : ReachableG g claimedAfterLoad :=
  ReachableG.step loadedHS eClaimST 0 claimedAfterLoad
    (reachG_loadedHS g h1 h2) h3 (by decide)

lemma reachG_misdirHS (g : CargoEvent → Cargo → Bool)
    (h1 : g eAssignHS cargo0 = true) (h2 : g eUnloadV1TK routedHS = true) :
    ReachableG g misdirHS :=
  ReachableG.step routedHS eUnloadV1TK 0 misdirHS (reachG_routedHS g h1) h2 (by decide)

lemma reachG_misdirReceived (g : CargoEvent → Cargo → Bool)
    (h1 : g eAssignHS cargo0 = true) (h2 : g eUnloadV1TK routedHS = true)
    (h3 : g eReceiveTK misdirHS = true) : ReachableG g misdirReceived :=
  ReachableG.step misdirHS eReceiveTK 0 misdirReceived
    (reachG_misdirHS g h1 h2) h3 (by decide)

lemma reachG_claimedHS (g : CargoEvent → Cargo → Bool)
    (h1 : g eAssignHS cargo0 = true) (h2 : g eClaimST routedHS = true) :
    ReachableG g claimedHS :=
  ReachableG.step routedHS eClaimST 0 claimedHS (reachG_routedHS g h1) h2 (by decide)

lemma reachG_reroutedClaimed (g : CargoEvent → Cargo → Bool)
    (h1 : g eAssignHS cargo0 = true) (h2 : g eClaimST routedHS = true)
    (h3 : g eAssignHS claimedHS = true) : ReachableG g reroutedClaimed :=
  ReachableG.step claimedHS eAssignHS 0 reroutedClaimed
    (reachG_claimedHS g h1 h2) h3 (by decide)

lemma reachG_destChangedHS (g : CargoEvent → Cargo → Bool)
    (h1 : g eAssignHS cargo0 = true) (h2 : g eChangeDestUS routedHS = true) :
    ReachableG g destChangedHS :=
  ReachableG.step routedHS eChangeDestUS 0 destChangedHS
    (reachG_routedHS g h1) h2 (by decide)

lemma reachG_routedBad (g : CargoEvent → Cargo → Bool)
    (h1 : g eAssignBad cargo0 = true) : ReachableG g routedBad :=
  ReachableG.step cargo0 eAssignBad 0 routedBad (reachG_cargo0 g) h1 (by decide)

/-!  Frame theorems for the two simple mutations, and concrete
counterexamples refuting the claims the code does not satisfy. -/

/-- Claim C6 (confirmed): applying a RouteAssigned event always
succeeds and yields a state whose route is the given itinerary, whose
routing status is ROUTED, whose next expected activity is (RECEIVE,
origin) for the cargo's own origin, whose misdirection flag is cleared,
and whose estimated time of arrival is one week from the time of the
mutation; every other field is unchanged. -/
theorem routeAssigned_mutation_spec (c : Cargo) (it : Itinerary) (now : Nat) :
    (applyEvent now (.routeAssigned it) c).2 = none ∧
    (applyEvent now (.routeAssigned it) c).1.route = some it ∧
    (applyEvent now (.routeAssigned it) c).1.routingStatus = "ROUTED" ∧
    (applyEvent now (.routeAssigned it) c).1.nextExpectedActivity =
      some (.pair .RECEIVE c.origin) ∧
    (applyEvent now (.routeAssigned it) c).1.isMisdirected = false ∧
    (applyEvent now (.routeAssigned it) c).1.estimatedTimeOfArrival =
      some (now + oneWeek) ∧
    (applyEvent now (.routeAssigned it) c).1.origin = c.origin ∧
    (applyEvent now (.routeAssigned it) c).1.destination = c.destination ∧
    (applyEvent now (.routeAssigned it) c).1.arrivalDeadline = c.arrivalDeadline ∧
    (applyEvent now (.routeAssigned it) c).1.transportStatus = c.transportStatus ∧
    (applyEvent now (.routeAssigned it) c).1.lastKnownLocation = c.lastKnownLocation ∧
    (applyEvent now (.routeAssigned it) c).1.currentVoyageNumber = c.currentVoyageNumber :=
  ⟨rfl, rfl, rfl, rfl, rfl, rfl, rfl, rfl, rfl, rfl, rfl, rfl⟩

/-- Claim C9 (confirmed): applying a DestinationChanged event always
succeeds, sets the destination to the given location, and leaves every
other field of the state unchanged, at any transport or routing
status. -/
theorem destinationChanged_mutation_spec (c : Cargo) (d : Location) (now : Nat) :
    (applyEvent now (.destinationChanged d) c).2 = none ∧
    (applyEvent now (.destinationChanged d) c).1.destination = d ∧
    (applyEvent now (.destinationChanged d) c).1.origin = c.origin ∧
    (applyEvent now (.destinationChanged d) c).1.arrivalDeadline = c.arrivalDeadline ∧
    (applyEvent now (.destinationChanged d) c).1.transportStatus = c.transportStatus ∧
    (applyEvent now (.destinationChanged d) c).1.routingStatus = c.routingStatus ∧
    (applyEvent now (.destinationChanged d) c).1.isMisdirected = c.isMisdirected ∧
    (applyEvent now (.destinationChanged d) c).1.estimatedTimeOfArrival =
      c.estimatedTimeOfArrival ∧
    (applyEvent now (.destinationChanged d) c).1.nextExpectedActivity =
      c.nextExpectedActivity ∧
    (applyEvent now (.destinationChanged d) c).1.route = c.route ∧
    (applyEvent now (.destinationChanged d) c).1.lastKnownLocation =
      c.lastKnownLocation ∧
    (applyEvent now (.destinationChanged d) c).1.currentVoyageNumber =
      c.currentVoyageNumber :=
  ⟨rfl, rfl, rfl, rfl, rfl, rfl, rfl, rfl, rfl, rfl, rfl, rfl⟩

/-- Claim C1 counterexample: `routedHS` is a reachable state with an
assigned route, and the LOAD event with voyage V9 at TOKYO makes the
mutation fail (no leg matches), yet the resulting projection differs
from the state before the attempt (`transport_status` and
`current_voyage_number` were already overwritten when the raise
happened). -/
theorem failedLoad_mutates_projection :
    Reachable routedHS ∧ routedHS.route.isSome = true ∧
    (applyEvent 0 eLoadV9TK routedHS).2.isSome = true ∧
    (applyEvent 0 eLoadV9TK routedHS).1 ≠ routedHS ∧
    (applyEvent 0 eLoadV9TK routedHS).1.transportStatus ≠ routedHS.transportStatus :=
  ⟨reachG_routedHS noGuard rfl, by decide, by decide, by decide, by decide⟩

/-- Claim C2 counterexample: replaying the single-event sequence
[RouteAssigned itinHS] from the same fresh booking at two different
wall-clock readings yields different projections (the estimated time of
arrival is `now + 1 week` at mutation time), so reconstruction is not a
pure function of the event sequence alone. -/
theorem replay_not_clock_independent :
    (replay [0] [eAssignHS] cargo0).1 ≠ (replay [1] [eAssignHS] cargo0).1 ∧
    (replay [0] [eAssignHS] cargo0).1.estimatedTimeOfArrival ≠
      (replay [1] [eAssignHS] cargo0).1.estimatedTimeOfArrival :=
  ⟨by decide, by decide⟩

/-- Claim C3 counterexample: the state reached by booking, assigning
the registered route, loading onto V1 at HONGKONG and then registering
a CLAIM (without unloading) has a non-None current voyage number but
transport status CLAIMED, not ONBOARD_CARRIER. -/
theorem currentVoyage_without_onboard_reachable :
    Reachable claimedAfterLoad ∧
    claimedAfterLoad.currentVoyageNumber ≠ none ∧
    claimedAfterLoad.transportStatus ≠ "ONBOARD_CARRIER" :=
  ⟨reachG_claimedAfterLoad noGuard rfl rfl rfl, by decide, by decide⟩

/-- Claim C4 counterexample: after a misdirecting UNLOAD at TOKYO, a
further RECEIVE at TOKYO is a successful mutation that sets a non-None
next expected activity while leaving the misdirection flag set, and no
RouteAssigned intervened. -/
theorem misdirected_with_activity_reachable :
    Reachable misdirReceived ∧
    misdirReceived.isMisdirected = true ∧
    misdirReceived.nextExpectedActivity ≠ none :=
  ⟨reachG_misdirReceived noGuard rfl rfl rfl, by decide, by decide⟩

/-- Claim C5 counterexample: assigning a route to a claimed cargo is a
successful mutation that leaves the transport status CLAIMED while
setting the next expected activity to (RECEIVE, origin). -/
theorem claimed_with_activity_reachable :
    Reachable reroutedClaimed ∧
    reroutedClaimed.transportStatus = "CLAIMED" ∧
    reroutedClaimed.nextExpectedActivity ≠ none :=
  ⟨reachG_reroutedClaimed noGuard rfl rfl rfl, by decide, by decide⟩

/-- Claim C7 counterexample: in the reachable routed state `routedBad`
a leg matching the LOAD event (origin HONGKONG, voyage V9) exists, yet
the mutation fails (the matching leg's destination ATLANTIS names no
location, a `KeyError`), and the next expected activity is left at its
stale prior value, contrary to the claimed success outcome. -/
theorem load_matching_leg_can_fail :
    Reachable routedBad ∧ routedBad.route = some itinBad ∧
    (∃ leg ∈ itinBad.legs,
       leg.origin = Location.HONGKONG.value ∧ some leg.voyage_number = some "V9") ∧
    (applyEvent 0 (.handlingEventRegistered (some "V9") .HONGKONG .LOAD) routedBad).2.isSome
      = true ∧
    (applyEvent 0 (.handlingEventRegistered (some "V9") .HONGKONG .LOAD) routedBad).2 ≠
      some (.legNotFound .HONGKONG (some "V9")) ∧
    (applyEvent 0 (.handlingEventRegistered (some "V9") .HONGKONG .LOAD)
       routedBad).1.nextExpectedActivity = routedBad.nextExpectedActivity :=
  ⟨reachG_routedBad noGuard rfl, by decide, by decide, by decide, by decide, by decide⟩

/-- Claim C10 failing input: `destChangedHS` is reachable (book
HONGKONG → STOCKHOLM, assign the registered route, change the
destination to USDAL); the UNLOAD of voyage V2 at STOCKHOLM then hits a
location that is not the cargo's destination but is a leg destination,
the first leg with voyage number V2 is the last leg of the route, and
the access to the following leg raises an `IndexError`. -/
theorem unload_midroute_index_error :
    Reachable destChangedHS ∧ destChangedHS.route = some itinHS ∧
    Location.STOCKHOLM ≠ destChangedHS.destination ∧
    Location.STOCKHOLM.value ∈ itinHS.legs.map Leg.destination ∧
    itinHS.legs.findIdx? (fun leg => some leg.voyage_number == some "V2") = some 1 ∧
    itinHS.legs[2]? = none ∧
    (applyEvent 0 eUnloadV2ST destChangedHS).2 = some .indexError :=
  ⟨reachG_destChangedHS noGuard rfl rfl, by decide, by decide, by decide,
   by decide, by decide, by decide⟩

/-- Claim C1 (corrected): a handling-event mutation that fails with the
leg-not-found error does NOT leave the projection untouched — by the
time the raise happens the LOAD branch has already overwritten
`transport_status` (to ONBOARD_CARRIER) and `current_voyage_number` (to
the event's voyage number).  Every other field keeps its prior value,
and the event log is untouched because the event is published only
after a successful mutation. -/
theorem failedLoad_partial_mutation (c : Cargo) (r : Itinerary) (v : Option String)
    (loc : Location) (log : List CargoEvent) (now : Nat)
    (h : c.route = some r)
    (hnone : r.legs.find? (legMatchesLoad loc.value v) = none) :
    mutateHE v loc .LOAD c =
      ({ c with transportStatus := "ONBOARD_CARRIER", currentVoyageNumber := v },
       some (.legNotFound loc v)) ∧
    (trigger now (.handlingEventRegistered v loc .LOAD) c log).1.2 = log := by
  have hm : mutateHE v loc .LOAD c =
      ({ c with transportStatus := "ONBOARD_CARRIER", currentVoyageNumber := v },
       some (.legNotFound loc v)) := by
    simp [mutateHE, h, mutateLoad, hnone]
  refine ⟨hm, ?_⟩
  simp [trigger, applyEvent, hm]

/-- Witness for the corrected claim C1 at a concrete input: the routed
HONGKONG → STOCKHOLM cargo and a LOAD of voyage V9 at TOKYO. -/
theorem failedLoad_partial_mutation_witness :
    routedHS.route = some itinHS ∧
    itinHS.legs.find? (legMatchesLoad Location.TOKYO.value (some "V9")) = none ∧
    (mutateHE (some "V9") .TOKYO .LOAD routedHS =
       ({ routedHS with transportStatus := "ONBOARD_CARRIER",
                        currentVoyageNumber := some "V9" },
        some (.legNotFound .TOKYO (some "V9"))) ∧
     (trigger 0 (.handlingEventRegistered (some "V9") .TOKYO .LOAD) routedHS []).1.2
       = []) :=
  ⟨by decide, by decide,
   failedLoad_partial_mutation routedHS itinHS (some "V9") .TOKYO [] 0
     (by decide) (by decide)⟩

/-- Claim C8 (confirmed): any UNLOAD mutation on a routed cargo leaves
the state with current voyage number None, last known location the
event's location, and transport status IN_PORT; an UNLOAD at the
cargo's destination succeeds with next expected activity (CLAIM,
location), and an UNLOAD at a location that is neither the destination
nor any leg destination succeeds, sets the misdirection flag and clears
the next expected activity. -/
theorem unload_mutation_spec (c : Cargo) (r : Itinerary) (v : Option String)
    (loc : Location) (h : c.route = some r) :
    (mutateHE v loc .UNLOAD c).1.currentVoyageNumber = none ∧
    (mutateHE v loc .UNLOAD c).1.lastKnownLocation = some loc ∧
    (mutateHE v loc .UNLOAD c).1.transportStatus = "IN_PORT" ∧
    (loc = c.destination →
       mutateHE v loc .UNLOAD c =
         ({ c with currentVoyageNumber := none, lastKnownLocation := some loc,
                   transportStatus := "IN_PORT",
                   nextExpectedActivity := some (.pair .CLAIM loc) }, none)) ∧
    (loc ≠ c.destination → loc.value ∉ r.legs.map Leg.destination →
       mutateHE v loc .UNLOAD c =
         ({ c with currentVoyageNumber := none, lastKnownLocation := some loc,
                   transportStatus := "IN_PORT", isMisdirected := true,
                   nextExpectedActivity := none }, none)) := by
  have hm : mutateHE v loc .UNLOAD c = mutateUnload v loc r c := by
    simp [mutateHE, h]
  rw [hm]
  unfold mutateUnload
  refine ⟨?_, ?_, ?_, ?_, ?_⟩
  · repeat' split
    all_goals rfl
  · repeat' split
    all_goals rfl
  · repeat' split
    all_goals rfl
  · intro hd
    rw [if_pos hd]
  · intro hd hmem
    rw [if_neg hd, if_neg hmem]

/-- Witness for claim C8 at a concrete input: the routed cargo and an
UNLOAD of voyage V1 at TOKYO. -/
theorem unload_mutation_spec_witness :
    routedHS.route = some itinHS ∧
    (mutateHE (some "V1") .TOKYO .UNLOAD routedHS).1.currentVoyageNumber = none :=
  ⟨by decide, (unload_mutation_spec routedHS itinHS (some "V1") .TOKYO (by decide)).1⟩

/-- Claim C7 (corrected): on a routed cargo, the LOAD mutation raises
the leg-not-found error exactly when no leg of the route matches both
the event's location (as origin) and its voyage number; when the first
matching leg exists and its destination names a known location the
mutation succeeds with transport status ONBOARD_CARRIER, current voyage
number the event's voyage number and next expected activity (UNLOAD,
that location, voyage number); but when the first matching leg's
destination names no known location the mutation fails with a KeyError
after overwriting transport status and current voyage number. -/
theorem load_mutation_spec (c : Cargo) (r : Itinerary) (v : Option String)
    (loc : Location) (h : c.route = some r) :
    ((mutateHE v loc .LOAD c).2 = some (.legNotFound loc v) ↔
       ∀ leg ∈ r.legs, ¬(leg.origin = loc.value ∧ some leg.voyage_number = v)) ∧
    (∀ leg, r.legs.find? (legMatchesLoad loc.value v) = some leg →
       (∀ legDest, locationOfName leg.destination = some legDest →
          mutateHE v loc .LOAD c =
            ({ c with transportStatus := "ONBOARD_CARRIER",
                      currentVoyageNumber := v,
                      nextExpectedActivity := some (.triple .UNLOAD legDest v) },
             none)) ∧
       (locationOfName leg.destination = none →
          mutateHE v loc .LOAD c =
            ({ c with transportStatus := "ONBOARD_CARRIER",
                      currentVoyageNumber := v },
             some (.keyError leg.destination)))) := by
  have hm : mutateHE v loc .LOAD c = mutateLoad v loc r c := by
    simp [mutateHE, h]
  rw [hm]
  constructor
  · unfold mutateLoad
    cases hf : r.legs.find? (legMatchesLoad loc.value v) with
    | none =>
      simp only [hf]
      constructor
      · intro _ leg hleg hcontra
        have hnot := List.find?_eq_none.mp hf leg hleg
        apply hnot
        simp [legMatchesLoad, hcontra.1, hcontra.2]
      · intro _
        trivial
    | some leg =>
      have hp : legMatchesLoad loc.value v leg = true := List.find?_some hf
      have hmem : leg ∈ r.legs := List.mem_of_find?_eq_some hf
      have hmatch : leg.origin = loc.value ∧ some leg.voyage_number = v := by
        simpa [legMatchesLoad] using hp
      simp only [hf]
      constructor
      · intro habs
        exfalso
        cases hl : locationOfName leg.destination <;> simp [hl] at habs
      · intro hall
        exact absurd hmatch (hall leg hmem)
  · intro leg hf
    constructor
    · intro legDest hl
      simp [mutateLoad, hf, hl]
    · intro hl
      simp [mutateLoad, hf, hl]

/-- Witness for the corrected claim C7 at a concrete input: the routed
cargo and a LOAD of voyage V1 at HONGKONG. -/
theorem load_mutation_spec_witness :
    routedHS.route = some itinHS ∧
    ((mutateHE (some "V1") .HONGKONG .LOAD routedHS).2 =
       some (.legNotFound .HONGKONG (some "V1")) ↔
     ∀ leg ∈ itinHS.legs,
       ¬(leg.origin = Location.HONGKONG.value ∧ some leg.voyage_number = some "V1")) :=
  ⟨by decide, (load_mutation_spec routedHS itinHS (some "V1") .HONGKONG (by decide)).1⟩

lemma mutateReceive_ok (loc : Location) (r : Itinerary) (c c2 : Cargo)
    (h : mutateReceive loc r c = (c2, none)) :
    c2.transportStatus = "IN_PORT" ∧ c2.currentVoyageNumber = c.currentVoyageNumber ∧
    c2.isMisdirected = c.isMisdirected := by
  unfold mutateReceive at h
  split at h
  · simp at h
  · simp only [Prod.mk.injEq] at h
    obtain ⟨h1, -⟩ := h
    subst h1
    exact ⟨rfl, rfl, rfl⟩

lemma mutateLoad_ok (v : Option String) (loc : Location) (r : Itinerary) (c c2 : Cargo)
    (h : mutateLoad v loc r c = (c2, none)) :
    c2.transportStatus = "ONBOARD_CARRIER" ∧ c2.isMisdirected = c.isMisdirected := by
  unfold mutateLoad at h
  split at h
  · simp at h
  · split at h
    · simp at h
    · simp only [Prod.mk.injEq] at h
      obtain ⟨h1, -⟩ := h
      subst h1
      exact ⟨rfl, rfl⟩

lemma mutateUnload_ok (v : Option String) (loc : Location) (r : Itinerary) (c c2 : Cargo)
    (h : mutateUnload v loc r c = (c2, none)) :
    c2.transportStatus = "IN_PORT" ∧ c2.currentVoyageNumber = none ∧
    (c2.isMisdirected = c.isMisdirected ∨
     (c2.isMisdirected = true ∧ c2.nextExpectedActivity = none)) := by
  unfold mutateUnload at h
  split at h
  · simp only [Prod.mk.injEq] at h
    obtain ⟨h1, -⟩ := h
    subst h1
    exact ⟨rfl, rfl, Or.inl rfl⟩
  · split at h
    · split at h
      · simp only [Prod.mk.injEq] at h
        obtain ⟨h1, -⟩ := h
        subst h1
        exact ⟨rfl, rfl, Or.inl rfl⟩
      · split at h
        · simp at h
        · split at h
          · simp at h
          · split at h
            · simp only [Prod.mk.injEq] at h
              obtain ⟨h1, -⟩ := h
              subst h1
              exact ⟨rfl, rfl, Or.inl rfl⟩
            · simp at h
    · simp only [Prod.mk.injEq] at h
      obtain ⟨h1, -⟩ := h
      subst h1
      exact ⟨rfl, rfl, Or.inr ⟨rfl, rfl⟩⟩

lemma mutateClaim_ok (c c2 : Cargo) (h : mutateClaim c = (c2, none)) :
    c2.transportStatus = "CLAIMED" ∧ c2.nextExpectedActivity = none ∧
    c2.currentVoyageNumber = c.currentVoyageNumber ∧
    c2.isMisdirected = c.isMisdirected := by
  unfold mutateClaim at h
  simp only [Prod.mk.injEq] at h
  obtain ⟨h1, -⟩ := h
  subst h1
  exact ⟨rfl, rfl, rfl, rfl⟩

/-- Caller-level lifecycle guard: RECEIVE and CLAIM handling events are
not registered while the cargo is onboard a carrier (the per-leg
lifecycle RECEIVE, then LOAD/UNLOAD pairs, then CLAIM). -/
def guardLifecycleRC (e : CargoEvent) (c : Cargo) : Bool :=
  match e with
  | .handlingEventRegistered _ _ .RECEIVE => !(c.transportStatus == "ONBOARD_CARRIER")
  | .handlingEventRegistered _ _ .CLAIM => !(c.transportStatus == "ONBOARD_CARRIER")
  | _ => true

/-- Caller-level guard: no handling event is registered while the cargo
is misdirected (misdirection is terminal until a fresh route
assignment). -/
def guardNoHandlingWhileMisdirected (e : CargoEvent) (c : Cargo) : Bool :=
  match e with
  | .handlingEventRegistered _ _ _ => !c.isMisdirected
  | _ => true

/-- Caller-level guard: no route is assigned to a claimed cargo. -/
def guardNoRerouteAfterClaim (e : CargoEvent) (c : Cargo) : Bool :=
  match e with
  | .routeAssigned _ => !(c.transportStatus == "CLAIMED")
  | _ => true

/-- Claim C3 (corrected): in every state reachable from a new booking
under the discipline that RECEIVE and CLAIM events are only registered
while the cargo is not ONBOARD_CARRIER, a non-None current voyage
number implies transport status ONBOARD_CARRIER.  (Unrestricted event
sequences violate the invariant: see the counterexample.) -/
theorem currentVoyage_implies_onboard (c : Cargo)
    (h : ReachableG guardLifecycleRC c) :
    c.currentVoyageNumber ≠ none → c.transportStatus = "ONBOARD_CARRIER" := by
  induction h with
  | booked o d dl => intro hv; exact absurd rfl hv
  | step c e now c2 hr hg happ ih =>
    cases e with
    | destinationChanged d =>
      simp only [applyEvent, Prod.mk.injEq] at happ
      obtain ⟨h1, -⟩ := happ
      subst h1
      exact ih
    | routeAssigned r =>
      simp only [applyEvent, Prod.mk.injEq] at happ
      obtain ⟨h1, -⟩ := happ
      subst h1
      exact ih
    | handlingEventRegistered v loc a =>
      simp only [applyEvent] at happ
      unfold mutateHE at happ
      split at happ
      · simp at happ
      · cases a with
        | RECEIVE =>
          obtain ⟨hst, hcv, hm⟩ := mutateReceive_ok _ _ _ _ happ
          intro hv
          rw [hcv] at hv
          simp [guardLifecycleRC] at hg
          exact absurd (ih hv) hg
        | LOAD =>
          obtain ⟨hst, -⟩ := mutateLoad_ok _ _ _ _ _ happ
          intro _
          exact hst
        | UNLOAD =>
          obtain ⟨-, hcv, -⟩ := mutateUnload_ok _ _ _ _ _ happ
          intro hv
          exact absurd hcv hv
        | CLAIM =>
          obtain ⟨hst, -, hcv, -⟩ := mutateClaim_ok _ _ happ
          intro hv
          rw [hcv] at hv
          simp [guardLifecycleRC] at hg
          exact absurd (ih hv) hg

/-- Claim C4 (corrected): in every state reachable from a new booking
under the discipline that no handling event is registered while the
cargo is misdirected, a set misdirection flag implies that the next
expected activity is None (the misdirecting UNLOAD itself clears it and
only RouteAssigned resets the flag).  (Unrestricted event sequences
violate the invariant: see the counterexample.) -/
theorem misdirected_implies_no_activity (c : Cargo)
    (h : ReachableG guardNoHandlingWhileMisdirected c) :
    c.isMisdirected = true → c.nextExpectedActivity = none := by
  induction h with
  | booked o d dl => intro hm; simp [newBooking] at hm
  | step c e now c2 hr hg happ ih =>
    cases e with
    | destinationChanged d =>
      simp only [applyEvent, Prod.mk.injEq] at happ
      obtain ⟨h1, -⟩ := happ
      subst h1
      exact ih
    | routeAssigned r =>
      simp only [applyEvent, Prod.mk.injEq] at happ
      obtain ⟨h1, -⟩ := happ
      subst h1
      intro hm
      exact absurd hm (by simp)
    | handlingEventRegistered v loc a =>
      simp only [applyEvent] at happ
      unfold mutateHE at happ
      split at happ
      · simp at happ
      · simp [guardNoHandlingWhileMisdirected] at hg
        cases a with
        | RECEIVE =>
          obtain ⟨-, -, hm2⟩ := mutateReceive_ok _ _ _ _ happ
          intro hm
          rw [hm2, hg] at hm
          exact absurd hm (by decide)
        | LOAD =>
          obtain ⟨-, hm2⟩ := mutateLoad_ok _ _ _ _ _ happ
          intro hm
          rw [hm2, hg] at hm
          exact absurd hm (by decide)
        | UNLOAD =>
          obtain ⟨-, -, hcase⟩ := mutateUnload_ok _ _ _ _ _ happ
          intro hm
          cases hcase with
          | inl heq =>
            rw [heq, hg] at hm
            exact absurd hm (by decide)
          | inr hpair =>
            exact hpair.2
        | CLAIM =>
          obtain ⟨-, -, -, hm2⟩ := mutateClaim_ok _ _ happ
          intro hm
          rw [hm2, hg] at hm
          exact absurd hm (by decide)

/-- Claim C5 (corrected): in every state reachable from a new booking
under the discipline that no route is assigned to a claimed cargo,
transport status CLAIMED implies that the next expected activity is
None; in particular UNLOAD and LOAD events never produce a state that
is both CLAIMED and has a non-None next expected activity.
(RouteAssigned on a claimed cargo violates the invariant: see the
counterexample.) -/
theorem claimed_implies_no_activity (c : Cargo)
    (h : ReachableG guardNoRerouteAfterClaim c) :
    c.transportStatus = "CLAIMED" → c.nextExpectedActivity = none := by
  induction h with
  | booked o d dl => intro hst; simp [newBooking] at hst
  | step c e now c2 hr hg happ ih =>
    cases e with
    | destinationChanged d =>
      simp only [applyEvent, Prod.mk.injEq] at happ
      obtain ⟨h1, -⟩ := happ
      subst h1
      exact ih
    | routeAssigned r =>
      simp only [applyEvent, Prod.mk.injEq] at happ
      obtain ⟨h1, -⟩ := happ
      subst h1
      intro hst
      simp [guardNoRerouteAfterClaim] at hg
      exact absurd hst hg
    | handlingEventRegistered v loc a =>
      simp only [applyEvent] at happ
      unfold mutateHE at happ
      split at happ
      · simp at happ
      · cases a with
        | RECEIVE =>
          obtain ⟨hst2, -, -⟩ := mutateReceive_ok _ _ _ _ happ
          intro hst
          rw [hst2] at hst
          exact absurd hst (by decide)
        | LOAD =>
          obtain ⟨hst2, -⟩ := mutateLoad_ok _ _ _ _ _ happ
          intro hst
          rw [hst2] at hst
          exact absurd hst (by decide)
        | UNLOAD =>
          obtain ⟨hst2, -, -⟩ := mutateUnload_ok _ _ _ _ _ happ
          intro hst
          rw [hst2] at hst
          exact absurd hst (by decide)
        | CLAIM =>
          obtain ⟨-, hnea, -, -⟩ := mutateClaim_ok _ _ happ
          intro _
          exact hnea

/-- Witness for the corrected claim C3 at a concrete reachable state:
the cargo loaded onto voyage V1 at HONGKONG. -/
theorem currentVoyage_implies_onboard_witness :
    loadedHS.currentVoyageNumber ≠ none ∧
    loadedHS.transportStatus = "ONBOARD_CARRIER" :=
  ⟨by decide, currentVoyage_implies_onboard loadedHS
     (reachG_loadedHS guardLifecycleRC (by decide) (by decide)) (by decide)⟩

/-- Witness for the corrected claim C4 at a concrete reachable state:
the cargo misdirected by an UNLOAD at TOKYO. -/
theorem misdirected_implies_no_activity_witness :
    misdirHS.isMisdirected = true ∧ misdirHS.nextExpectedActivity = none :=
  ⟨by decide, misdirected_implies_no_activity misdirHS
     (reachG_misdirHS guardNoHandlingWhileMisdirected (by decide) (by decide))
     (by decide)⟩

/-- Witness for the corrected claim C5 at a concrete reachable state:
the cargo claimed at STOCKHOLM. -/
theorem claimed_implies_no_activity_witness :
    claimedHS.transportStatus = "CLAIMED" ∧ claimedHS.nextExpectedActivity = none :=
  ⟨by decide, claimed_implies_no_activity claimedHS
     (reachG_claimedHS guardNoRerouteAfterClaim (by decide) (by decide))
     (by decide)⟩

lemma eraseEta_seteta (c : Cargo) (x : Option Nat) :
    eraseEta { c with estimatedTimeOfArrival := x } = eraseEta c := rfl

lemma mutateReceive_eta (loc : Location) (r : Itinerary) (c : Cargo) (x : Option Nat) :
    mutateReceive loc r { c with estimatedTimeOfArrival := x } =
      ({ (mutateReceive loc r c).1 with estimatedTimeOfArrival := x },
       (mutateReceive loc r c).2) := by
  obtain ⟨o, d, dl, ts, rs, m, e, n, rt, l, v⟩ := c
  unfold mutateReceive
  cases h0 : r.legs[0]? <;> rfl

lemma mutateLoad_eta (v : Option String) (loc : Location) (r : Itinerary)
    (c : Cargo) (x : Option Nat) :
    mutateLoad v loc r { c with estimatedTimeOfArrival := x } =
      ({ (mutateLoad v loc r c).1 with estimatedTimeOfArrival := x },
       (mutateLoad v loc r c).2) := by
  obtain ⟨o, d, dl, ts, rs, m, e, n, rt, l, vv⟩ := c
  unfold mutateLoad
  cases hf : r.legs.find? (legMatchesLoad loc.value v) with
  | none => rfl
  | some leg =>
    dsimp only
    cases hl : locationOfName leg.destination <;> rfl

lemma mutateUnload_eta (v : Option String) (loc : Location) (r : Itinerary)
    (c : Cargo) (x : Option Nat) :
    mutateUnload v loc r { c with estimatedTimeOfArrival := x } =
      ({ (mutateUnload v loc r c).1 with estimatedTimeOfArrival := x },
       (mutateUnload v loc r c).2) := by
  obtain ⟨o, d, dl, ts, rs, m, e, n, rt, l, vv⟩ := c
  unfold mutateUnload
  by_cases hd : loc = d
  · simp [hd]
  · by_cases hmem : loc.value ∈ r.legs.map Leg.destination
    · simp only [hd, hmem, if_true, if_false, ite_true, ite_false]
      cases hidx : r.legs.findIdx? (fun leg => some leg.voyage_number == v) with
      | none => rfl
      | some i =>
        dsimp only
        cases hn : r.legs[i + 1]? with
        | none => rfl
        | some nextLeg =>
          dsimp only
          cases hl : locationOfName nextLeg.origin with
          | none => rfl
          | some nlo =>
            dsimp only
            by_cases ho : nlo = loc <;> simp [ho]
    · simp [hd, hmem]

lemma mutateClaim_eta (c : Cargo) (x : Option Nat) :
    mutateClaim { c with estimatedTimeOfArrival := x } =
      ({ (mutateClaim c).1 with estimatedTimeOfArrival := x }, (mutateClaim c).2) := by
  obtain ⟨o, d, dl, ts, rs, m, e, n, rt, l, v⟩ := c
  rfl

lemma mutateHE_eta (v : Option String) (loc : Location) (a : HandlingActivity)
    (c : Cargo) (x : Option Nat) :
    mutateHE v loc a { c with estimatedTimeOfArrival := x } =
      ({ (mutateHE v loc a c).1 with estimatedTimeOfArrival := x },
       (mutateHE v loc a c).2) := by
  obtain ⟨o, d, dl, ts, rs, m, e, n, rt, l, vv⟩ := c
  cases rt with
  | none => rfl
  | some route =>
    cases a with
    | RECEIVE => exact mutateReceive_eta loc route ⟨o, d, dl, ts, rs, m, e, n, some route, l, vv⟩ x
    | LOAD => exact mutateLoad_eta v loc route ⟨o, d, dl, ts, rs, m, e, n, some route, l, vv⟩ x
    | UNLOAD => exact mutateUnload_eta v loc route ⟨o, d, dl, ts, rs, m, e, n, some route, l, vv⟩ x
    | CLAIM => exact mutateClaim_eta ⟨o, d, dl, ts, rs, m, e, n, some route, l, vv⟩ x

set_option maxRecDepth 2000 in
lemma mutateHE_agree (v : Option String) (loc : Location) (a : HandlingActivity)
    (c : Cargo) (x1 x2 : Option Nat) :
    eraseEta (mutateHE v loc a { c with estimatedTimeOfArrival := x1 }).1 =
      eraseEta (mutateHE v loc a { c with estimatedTimeOfArrival := x2 }).1 ∧
    (mutateHE v loc a { c with estimatedTimeOfArrival := x1 }).2 =
      (mutateHE v loc a { c with estimatedTimeOfArrival := x2 }).2 := by
  have f1 := (congrArg (fun p => eraseEta p.1) (mutateHE_eta v loc a c x1)).trans
    (eraseEta_seteta (mutateHE v loc a c).1 x1)
  have f2 := (congrArg (fun p => eraseEta p.1) (mutateHE_eta v loc a c x2)).trans
    (eraseEta_seteta (mutateHE v loc a c).1 x2)
  have s1 := congrArg Prod.snd (mutateHE_eta v loc a c x1)
  have s2 := congrArg Prod.snd (mutateHE_eta v loc a c x2)
  exact ⟨f1.trans f2.symm, s1.trans s2.symm⟩

lemma applyEvent_agree (n1 n2 : Nat) (e : CargoEvent) (c1 c2 : Cargo)
    (h : eraseEta c1 = eraseEta c2) :
    eraseEta (applyEvent n1 e c1).1 = eraseEta (applyEvent n2 e c2).1 ∧
    (applyEvent n1 e c1).2 = (applyEvent n2 e c2).2 := by
  obtain ⟨o1, d1, dl1, ts1, rs1, m1, e1, n1f, r1, l1, v1⟩ := c1
  obtain ⟨o2, d2, dl2, ts2, rs2, m2, e2, n2f, r2, l2, v2⟩ := c2
  simp only [eraseEta, Cargo.mk.injEq, and_true, true_and] at h
  obtain ⟨rfl, rfl, rfl, rfl, rfl, rfl, rfl, rfl, rfl, rfl⟩ := h
  cases e with
  | destinationChanged d => exact ⟨rfl, rfl⟩
  | routeAssigned r =>
    refine ⟨?_, rfl⟩
    dsimp only [applyEvent, eraseEta]
  | handlingEventRegistered v loc a =>
    exact mutateHE_agree v loc a ⟨o1, d1, dl1, ts1, rs1, m1, e2, n1f, r1, l1, v1⟩ e1 e2

lemma replay_agree (events : List CargoEvent) :
    ∀ (ks1 ks2 : List Nat) (c1 c2 : Cargo), eraseEta c1 = eraseEta c2 →
      eraseEta (replay ks1 events c1).1 = eraseEta (replay ks2 events c2).1 ∧
      (replay ks1 events c1).2 = (replay ks2 events c2).2 := by
  induction events with
  | nil => intro ks1 ks2 c1 c2 h; exact ⟨h, rfl⟩
  | cons e rest ih =>
    intro ks1 ks2 c1 c2 h
    obtain ⟨h1, h2⟩ := applyEvent_agree (ks1.headD 0) (ks2.headD 0) e c1 c2 h
    rcases ha1 : applyEvent (ks1.headD 0) e c1 with ⟨c1n, err1⟩
    rcases ha2 : applyEvent (ks2.headD 0) e c2 with ⟨c2n, err2⟩
    rw [ha1, ha2] at h1 h2
    simp only at h1 h2
    subst h2
    unfold replay
    rw [ha1, ha2]
    cases err1 with
    | none => exact ih ks1.tail ks2.tail c1n c2n h1
    | some er => exact ⟨h1, rfl⟩

/-- Claim C2 (corrected): replaying the same event sequence from the
same initial state is deterministic in every field EXCEPT
estimatedTimeOfArrival, whatever wall-clock readings the two replays
observe; the raised-error behaviour is also identical.  (The field
estimatedTimeOfArrival genuinely differs between replays because
RouteAssigned stores the replay-time clock reading: see the
counterexample.) -/
theorem replay_deterministic_except_eta (clocks1 clocks2 : List Nat)
    (events : List CargoEvent) (c : Cargo) :
    eraseEta (replay clocks1 events c).1 = eraseEta (replay clocks2 events c).1 ∧
    (replay clocks1 events c).2 = (replay clocks2 events c).2 :=
  replay_agree events clocks1 clocks2 c c rfl
